import Mathlib

/-!
Verification development for the TLTB repository: shallow embeddings of
the UI mockup generator (`scripts/generate_screens.py`), the BLE test
client (`scripts/testBleConnection.py`), the firmware-image inspector
(`analyze_firmware.py`), and — modelled from the specification, since the
firmware itself is not part of the source tree — the overcurrent
protection core.
-/

namespace TLTB

/-- Load-current colour classification from `screen_home` in
`scripts/generate_screens.py`: the Python starts at GREEN, overrides with
RED when `load_a >= 20.0`, else with YELLOW when `load_a >= 15.0`.
Currents are modelled as rationals. -/
def load_color (load_a : ℚ) : String :=
  if load_a ≥ 20 then "RED"
  else if load_a ≥ 15 then "YELLOW"
  else "GREEN"

/-- Rail status line of `screen_home` (battery and system voltage rails in
`scripts/generate_screens.py`): colour and status word are chosen by exact
string comparison on the status alone; the measured voltage `_volt` is only
appended as text after the status word, so it is an unused argument here.
Returns (colour, status word). -/
def renderRailStatus (status : String) (_volt : Option ℚ) : String × String :=
  if status = "BYPASS" then ("YELLOW", "BYPASS")
  else if status = "ACTIVE" then ("RED", "ACTIVE")
  else ("GREEN", "ok")

/-- `RELAY_NAMES` from `scripts/testBleConnection.py`: console key mapped to
(relay id, display name), in the dict's insertion order. -/
def RELAY_NAMES : List (String × String × String) :=
  [("1", "relay-left", "Left Turn"),
   ("2", "relay-right", "Right Turn"),
   ("3", "relay-brake", "Brake"),
   ("4", "relay-tail", "Tail"),
   ("5", "relay-marker", "Marker/Rev"),
   ("6", "relay-aux", "Aux/Elec Brakes")]

/-- `relay_ids = [id for id, _ in RELAY_NAMES.values()]` from
`notification_handler`. -/
def relay_ids : List String := RELAY_NAMES.map (fun e => e.2.1)

/-- One parsed status record (the decoded JSON dict of a status
notification); every field is optional, mirroring `dict.get` with
defaults. -/
structure StatusRecord where
  mode : Option String
  activeLabel : Option String
  statusFlags : Option Nat
  faultMask : Option Nat
  relayMask : Option Nat
  loadAmps : Option ℚ
  srcVoltage : Option ℚ
  outVoltage : Option ℚ
deriving DecidableEq

/-- Python truthiness of the parsed dict (`if parsed:`): an empty dict is
falsy; a record with every field absent models the empty dict. -/
def StatusRecord.truthy (p : StatusRecord) : Bool :=
  p.mode.isSome || p.activeLabel.isSome || p.statusFlags.isSome ||
  p.faultMask.isSome || p.relayMask.isSome || p.loadAmps.isSome ||
  p.srcVoltage.isSome || p.outVoltage.isSome

/-- `decode_status` from `scripts/testBleConnection.py`: try
base64-then-JSON, then plain UTF-8 JSON, else `None`. The two library
decoders are parameters, total functions returning `none` wherever the
Python library call raises. -/
def decode_status (b64json utf8json : List Nat → Option StatusRecord)
    (data : List Nat) : Option StatusRecord :=
  match b64json data with
  | some p => some p
  | none => utf8json data

/-- Relay-mask decoding from `notification_handler`
(`relay_states[relay_id] = (mask & (1 << i)) != 0` over
`enumerate(relay_ids)`). -/
def decodeRelayStates (mask : Nat) : List (String × Bool) :=
  relay_ids.enum.map (fun p => (p.2, mask &&& (1 <<< p.1) != 0))

/-- The BLE console's global state: `current_status` (last parsed record,
`none` standing for the initial empty dict) and the `relay_states` dict as
an association list. -/
structure ClientState where
  current_status : Option StatusRecord
  relay_states : List (String × Bool)
deriving DecidableEq

/-- `notification_handler` from `scripts/testBleConnection.py`: decode; a
falsy result (`None`, or an empty dict) leaves both globals unchanged and
prints nothing — the returned Bool is true exactly when the status screen
is printed. A truthy record replaces `current_status` and rewrites all six
`relay_states` entries from `relayMask` (default 0). -/
def notification_handler (b64json utf8json : List Nat → Option StatusRecord)
    (st : ClientState) (data : List Nat) : ClientState × Bool :=
  match decode_status b64json utf8json data with
  | none => (st, false)
  | some parsed =>
    if parsed.truthy then
      ({ current_status := some parsed,
         relay_states := decodeRelayStates (parsed.relayMask.getD 0) }, true)
    else (st, false)

/-- The 12 V report of `notification_handler`:
`'Yes' if (parsed.get('statusFlags', 0) & 1) else 'No'`. -/
def twelveVReport (p : StatusRecord) : Bool :=
  (p.statusFlags.getD 0) &&& 1 != 0

/-- Python `str.strip` whitespace set (the ASCII whitespace characters). -/
def isPySpace (c : Char) : Bool :=
  c = ' ' || c = '\t' || c = '\n' || c = '\r' ||
  c = Char.ofNat 11 || c = Char.ofNat 12

/-- Python `str.lower` on an ASCII character. -/
def pyLowerChar (c : Char) : Char :=
  if 'A' ≤ c ∧ c ≤ 'Z' then Char.ofNat (c.toNat + 32) else c

/-- `cmd.strip().lower()` from `handle_input`. -/
def pyNormalize (line : String) : String :=
  String.mk
    ((((line.data.dropWhile isPySpace).reverse.dropWhile isPySpace).reverse).map
      pyLowerChar)

/-- The wire command kinds of the remote protocol (spec section 6); the
test client only ever constructs the first two. -/
inductive Command
  | refresh : Command
  | relay : String → Bool → Command
  | mode : String → Command
  | clearLatch : Command
  | bypass : String → Bool → Command
deriving DecidableEq

/-- One iteration of the `handle_input` loop of
`scripts/testBleConnection.py`: strip and lowercase the line, then
dispatch. Returns the command written to the control characteristic (if
any) and whether the loop exits (on `q`). -/
def handle_input_step (relay_states : List (String × Bool)) (line : String) :
    Option Command × Bool :=
  let cmd := pyNormalize line
  if cmd = "q" then (none, true)
  else if cmd = "r" then (some Command.refresh, false)
  else
    match RELAY_NAMES.lookup cmd with
    | some idname =>
        (some (Command.relay idname.1
          (!((relay_states.lookup idname.1).getD false))), false)
    | none => (none, false)

/-- `json.dumps` (Python default separators) of each command dict; the
client only builds the `refresh` and `relay` shapes, the remaining shapes
follow the spec's protocol listing. Braces are written with hex escapes. -/
def json_dumps : Command → String
  | Command.refresh => "\x7b\"type\": \"refresh\"\x7d"
  | Command.relay id b =>
      "\x7b\"type\": \"relay\", \"relayId\": \"" ++ id ++ "\", \"state\": " ++
      (if b then "true" else "false") ++ "\x7d"
  | Command.mode m => "\x7b\"type\": \"mode\", \"mode\": \"" ++ m ++ "\"\x7d"
  | Command.clearLatch => "\x7b\"type\": \"clearLatch\"\x7d"
  | Command.bypass r b =>
      "\x7b\"type\": \"bypass\", \"rail\": \"" ++ r ++ "\", \"state\": " ++
      (if b then "true" else "false") ++ "\x7d"

/-- RFC 4648 base64 alphabet, as used by Python's `base64.b64encode`. -/
def b64Alphabet : List Char :=
  "ABCDEFGHIJKLMNOPQRSTUVWXYZabcdefghijklmnopqrstuvwxyz0123456789+/".data

/-- Index into the base64 alphabet. -/
def b64Char (n : Nat) : Char := b64Alphabet.getD n '='

/-- `base64.b64encode` on a byte list. -/
def base64Encode : List Nat → List Char
  | [] => []
  | [b0] => [b64Char (b0 / 4), b64Char (b0 % 4 * 16), '=', '=']
  | [b0, b1] =>
      [b64Char (b0 / 4), b64Char (b0 % 4 * 16 + b1 / 16),
       b64Char (b1 % 16 * 4), '=']
  | b0 :: b1 :: b2 :: rest =>
      b64Char (b0 / 4) :: b64Char (b0 % 4 * 16 + b1 / 16) ::
      b64Char (b1 % 16 * 4 + b2 / 64) :: b64Char (b2 % 64) ::
      base64Encode rest

/-- UTF-8 bytes of an ASCII string (every string the client serializes is
ASCII, where UTF-8 coincides with the code points). -/
def asciiBytes (s : String) : List Nat := s.data.map Char.toNat

/-- `send_command` from `scripts/testBleConnection.py`: JSON-serialize,
then base64-encode; the result is the payload written to the control
characteristic. -/
def send_command_payload (c : Command) : String :=
  String.mk (base64Encode (asciiBytes (json_dumps c)))

/-- Every write the test client ever makes to the control characteristic:
the `refresh` sent from `main`, and whatever a `handle_input` iteration
sends. -/
inductive ClientSends : Command → Prop
  | initial_refresh : ClientSends Command.refresh
  | from_input (relay_states : List (String × Bool)) (line : String)
      (c : Command) :
      (handle_input_step relay_states line).1 = some c → ClientSends c

/-- `int.from_bytes(data[off:off+4], 'little')` on a byte list. -/
def fromLE4 (data : List Nat) (off : Nat) : Nat :=
  data.getD off 0 + 256 * data.getD (off + 1) 0 +
  65536 * data.getD (off + 2) 0 + 16777216 * data.getD (off + 3) 0

/-- One examined segment of the walk in `analyze_firmware.py`: header
offset, load address, declared length. -/
structure Seg where
  offset : Nat
  addr : Nat
  len : Nat
deriving DecidableEq

/-- The segment loop of `analyze_firmware.py` (`for i in range(seg_count)`)
with the remaining iteration count as fuel: stop (recording nothing) when
the 8-byte header would cross the end of file; otherwise record the
segment; stop right after recording a segment whose declared length
exceeds 0x200000; otherwise continue at `offset + 8 + length`. -/
def segWalkAux (data : List Nat) : Nat → Nat → List Seg
  | 0, _ => []
  | n + 1, offset =>
    if offset + 8 > data.length then []
    else if fromLE4 data (offset + 4) > 0x200000 then
      [⟨offset, fromLE4 data offset, fromLE4 data (offset + 4)⟩]
    else
      ⟨offset, fromLE4 data offset, fromLE4 data (offset + 4)⟩ ::
        segWalkAux data n (offset + 8 + fromLE4 data (offset + 4))

/-- `seg_count = data[1]` from `analyze_firmware.py`. -/
def seg_count (data : List Nat) : Nat := data.getD 1 0

/-- The whole walk: segment headers start after the 24-byte image
header. -/
def segWalk (data : List Nat) : List Seg := segWalkAux data (seg_count data) 24

/-- Modelled from the spec: per-sample CurrentMonitor status (spec
section 4.2); the repository does not contain the firmware's
CurrentMonitor, only its client-side mirror. -/
inductive OcpStatus
  | OK : OcpStatus
  | WARN : OcpStatus
  | OCP_LATCHED : OcpStatus
deriving DecidableEq

/-- Modelled from the spec: CurrentMonitor state — the consecutive
over-threshold sample count and the OCP latch (spec section 4.2). -/
structure CurrentMonitorState where
  count : Nat
  ocpLatched : Bool
deriving DecidableEq

/-- Modelled from the spec: one CurrentMonitor sample tick (spec
section 4.2, calibrated by the section 8 example: threshold 20 A, 2-sample
sustain window, over-threshold samples 21,21,21 give WARN, WARN,
OCP_LATCHED). Once latched it stays latched (manual clear only); an
over-threshold sample latches when the sustain count has already reached
the configured duration and otherwise counts WARN; a below-threshold
sample resets the count. -/
def cmTick (thr : ℚ) (dur : Nat) (s : CurrentMonitorState) (amps : ℚ) :
    CurrentMonitorState × OcpStatus :=
  if s.ocpLatched then (s, OcpStatus.OCP_LATCHED)
  else if thr ≤ amps then
    if dur ≤ s.count then (⟨s.count, true⟩, OcpStatus.OCP_LATCHED)
    else (⟨s.count + 1, false⟩, OcpStatus.WARN)
  else (⟨0, false⟩, OcpStatus.OK)

/-- Modelled from the spec: the per-sample status trace of the
CurrentMonitor over a sample list. -/
def cmTrace (thr : ℚ) (dur : Nat) (s : CurrentMonitorState) :
    List ℚ → List OcpStatus
  | [] => []
  | a :: rest =>
    (cmTick thr dur s a).2 :: cmTrace thr dur (cmTick thr dur s a).1 rest

/-- Modelled from the spec: the fixed LoadChannel set (spec section 3). -/
inductive Channel
  | OFF | LEFT | RIGHT | BRAKE | TAIL | MARKER | AUX | REV | ELECTRIC_BRAKES
deriving DecidableEq

/-- Modelled from the spec: ProtectionStateMachine states (spec
section 4.4). -/
inductive ProtState
  | NORMAL | DEGRADED_BYPASS | COOLDOWN_BLOCKED | FAULT_LATCHED
deriving DecidableEq

/-- Modelled from the spec: the authoritative core state the claims need —
CurrentMonitor state, per-rail latch and bypass flags, active channel, the
12 V enable flag, and the protection state (spec sections 3 and 4.4). -/
structure CoreState where
  cm : CurrentMonitorState
  battLatched : Bool
  battBypass : Bool
  outLatched : Bool
  outBypass : Bool
  active : Channel
  twelveV : Bool
  prot : ProtState
deriving DecidableEq

/-- Modelled from the spec: one protection tick (spec section 4.4): run
the CurrentMonitor on the sample; any latched rail or the OCP latch forces
FAULT_LATCHED, the active channel to OFF and the 12 V flag false in the
same tick; otherwise the state is NORMAL, or DEGRADED_BYPASS when a rail
is bypassed (the soft cooldown path, which no claim exercises, is not
modelled). -/
def coreTick (thr : ℚ) (dur : Nat) (s : CoreState) (amps : ℚ) : CoreState :=
  let cm2 := (cmTick thr dur s.cm amps).1
  if s.battLatched || s.outLatched || cm2.ocpLatched then
    { s with cm := cm2, active := Channel.OFF, twelveV := false,
             prot := ProtState.FAULT_LATCHED }
  else
    { s with cm := cm2,
             prot := if s.battBypass || s.outBypass then
                       ProtState.DEGRADED_BYPASS
                     else ProtState.NORMAL }

/-- Modelled from the spec: a sequence of protection ticks. -/
def coreRun (thr : ℚ) (dur : Nat) (s : CoreState) (samples : List ℚ) :
    CoreState :=
  samples.foldl (coreTick thr dur) s

/-- Modelled from the spec: the relay bitmask bit of each channel, in the
fixed channel-id ordering the client decodes (left, right, brake, tail,
marker, aux; REV shares the marker relay and ELECTRIC_BRAKES the aux relay
per the client's display names). OFF drives no relay. -/
def channelMask : Channel → Nat
  | Channel.OFF => 0
  | Channel.LEFT => 1
  | Channel.RIGHT => 2
  | Channel.BRAKE => 4
  | Channel.TAIL => 8
  | Channel.MARKER => 16
  | Channel.REV => 16
  | Channel.AUX => 32
  | Channel.ELECTRIC_BRAKES => 32

/-- Modelled from the spec: the wire fields of the StatusPublisher
snapshot that the claims inspect (spec sections 4.5 and 6): `relayMask`
and `statusFlags`, bit 0 of which is the 12 V enable. -/
structure WireStatus where
  relayMask : Nat
  statusFlags : Nat
deriving DecidableEq

/-- Modelled from the spec: the StatusPublisher snapshot (spec
section 4.5). -/
def snapshot (s : CoreState) : WireStatus :=
  ⟨channelMask s.active, if s.twelveV then 1 else 0⟩

/-! Helper lemmas. -/

/-- Testing one bit with a mask equals `Nat.testBit`. -/
theorem and_shift_ne_zero (m k : Nat) : (m &&& (1 <<< k) != 0) = m.testBit k := by
  rw [Nat.shiftLeft_eq, one_mul, Nat.and_two_pow]
  cases h : m.testBit k <;> simp [h, (Nat.two_pow_pos k).ne']

/-- A latched CurrentMonitor stays latched on any sample. -/
theorem cmTick_latched_absorb (thr : ℚ) (dur : Nat) (s : CurrentMonitorState)
    (amps : ℚ) (h : s.ocpLatched = true) :
    (cmTick thr dur s amps).1.ocpLatched = true := by
  unfold cmTick
  simp [h]

/-- The CurrentMonitor component of a protection tick is the
CurrentMonitor tick. -/
theorem coreTick_cm (thr : ℚ) (dur : Nat) (s : CoreState) (amps : ℚ) :
    (coreTick thr dur s amps).cm = (cmTick thr dur s.cm amps).1 := by
  by_cases h : (s.battLatched || s.outLatched ||
      (cmTick thr dur s.cm amps).1.ocpLatched) = true
  · simp [coreTick, h]
  · simp only [coreTick]
    rw [if_neg h]

/-- `coreRun` on the empty sample list. -/
theorem coreRun_nil (thr : ℚ) (dur : Nat) (s : CoreState) :
    coreRun thr dur s [] = s := rfl

/-- `coreRun` unfolds one tick at a time. -/
theorem coreRun_cons (thr : ℚ) (dur : Nat) (s : CoreState) (a : ℚ)
    (l : List ℚ) :
    coreRun thr dur s (a :: l) = coreRun thr dur (coreTick thr dur s a) l := rfl

/-- An over-threshold CurrentMonitor tick either ends latched or counts one
more sustained sample while the count is still below the duration. -/
theorem cmTick_over (thr : ℚ) (dur : Nat) (s : CurrentMonitorState) (a : ℚ)
    (h : thr ≤ a) :
    (cmTick thr dur s a).1.ocpLatched = true ∨
    ((cmTick thr dur s a).1 = ⟨s.count + 1, false⟩ ∧ s.count < dur) := by
  unfold cmTick
  by_cases hl : s.ocpLatched
  · simp [hl]
  · by_cases hd : dur ≤ s.count
    · simp [hl, h, hd]
    · simp [hl, h, hd]
      omega

/-- A latched run stays latched. -/
theorem coreRun_latched_absorb (thr : ℚ) (dur : Nat) :
    ∀ (samples : List ℚ) (s : CoreState), s.cm.ocpLatched = true →
    (coreRun thr dur s samples).cm.ocpLatched = true := by
  intro samples
  induction samples with
  | nil => intro s h; exact h
  | cons a l ih =>
      intro s h
      rw [coreRun_cons]
      apply ih
      rw [coreTick_cm]
      exact cmTick_latched_absorb thr dur s.cm a h

/-- Over an all-over-threshold run the monitor either latches or the
sustained count grows by exactly the number of samples. -/
theorem coreRun_count_exact (thr : ℚ) (dur : Nat) :
    ∀ (samples : List ℚ) (s : CoreState), (∀ a ∈ samples, thr ≤ a) →
    (coreRun thr dur s samples).cm.ocpLatched = true ∨
    (coreRun thr dur s samples).cm.count = s.cm.count + samples.length := by
  intro samples
  induction samples with
  | nil => intro s _; right; rfl
  | cons a l ih =>
      intro s hall
      rw [coreRun_cons]
      rcases cmTick_over thr dur s.cm a (hall a (by simp)) with h | ⟨h1, _⟩
      · left
        apply coreRun_latched_absorb
        rw [coreTick_cm]
        exact h
      · have hcm : (coreTick thr dur s a).cm = ⟨s.cm.count + 1, false⟩ := by
          rw [coreTick_cm]; exact h1
        rcases ih (coreTick thr dur s a) (fun x hx => hall x (by simp [hx])) with
          h | h
        · left; exact h
        · right
          rw [h, hcm]
          simp
          omega

/-- Over a nonempty all-over-threshold run the monitor either latches or its
count stays at most the configured duration. -/
theorem coreRun_count_bound (thr : ℚ) (dur : Nat) :
    ∀ (samples : List ℚ) (s : CoreState), samples ≠ [] →
    (∀ a ∈ samples, thr ≤ a) →
    (coreRun thr dur s samples).cm.ocpLatched = true ∨
    (coreRun thr dur s samples).cm.count ≤ dur := by
  intro samples
  induction samples with
  | nil => intro s h; exact absurd rfl h
  | cons a l ih =>
      intro s _ hall
      rw [coreRun_cons]
      by_cases hl : l = []
      · subst hl
        rw [coreRun_nil]
        rcases cmTick_over thr dur s.cm a (hall a (by simp)) with h | ⟨h1, h2⟩
        · left; rw [coreTick_cm]; exact h
        · right
          rw [coreTick_cm, h1]
          show s.cm.count + 1 ≤ dur
          omega
      · exact ih (coreTick thr dur s a) hl (fun x hx => hall x (by simp [hx]))

/-- If a nonempty run ends with the OCP latch set, the final tick forced the
fault state, the OFF channel and the 12 V flag off. -/
theorem coreRun_forces_off (thr : ℚ) (dur : Nat) :
    ∀ (samples : List ℚ) (s : CoreState), samples ≠ [] →
    (coreRun thr dur s samples).cm.ocpLatched = true →
    (coreRun thr dur s samples).prot = ProtState.FAULT_LATCHED ∧
    (coreRun thr dur s samples).active = Channel.OFF ∧
    (coreRun thr dur s samples).twelveV = false := by
  intro samples
  induction samples with
  | nil => intro s h; exact absurd rfl h
  | cons a l ih =>
      intro s _ hlat
      rw [coreRun_cons] at hlat ⊢
      by_cases hl : l = []
      · subst hl
        rw [coreRun_nil] at hlat ⊢
        have hcm2 : (cmTick thr dur s.cm a).1.ocpLatched = true := by
          rw [← coreTick_cm]; exact hlat
        unfold coreTick
        simp [hcm2]
      · exact ih (coreTick thr dur s a) hl hlat

/-- The walk examines at most as many segments as its fuel. -/
theorem segWalkAux_length (data : List Nat) :
    ∀ (n offset : Nat), (segWalkAux data n offset).length ≤ n := by
  intro n
  induction n with
  | zero => intro offset; simp [segWalkAux]
  | succ m ih =>
      intro offset
      simp only [segWalkAux]
      split_ifs
      · simp
      · simp
      · simp only [List.length_cons]
        exact Nat.succ_le_succ (ih _)

/-- The first examined segment (when any) sits at the start offset. -/
theorem segWalkAux_head (data : List Nat) (n offset : Nat) :
    segWalkAux data n offset = [] ∨
    ((segWalkAux data n offset).getD 0 ⟨0, 0, 0⟩).offset = offset := by
  cases n with
  | zero => left; rfl
  | succ m =>
      simp only [segWalkAux]
      split_ifs
      · left; rfl
      · right; rfl
      · right; rfl

/-- Consecutive examined segments advance the offset by 8 plus the declared
length. -/
theorem segWalkAux_chain (data : List Nat) :
    ∀ (n offset k : Nat), k + 1 < (segWalkAux data n offset).length →
    ((segWalkAux data n offset).getD (k + 1) ⟨0, 0, 0⟩).offset =
      ((segWalkAux data n offset).getD k ⟨0, 0, 0⟩).offset + 8 +
      ((segWalkAux data n offset).getD k ⟨0, 0, 0⟩).len := by
  intro n
  induction n with
  | zero => intro offset k h; simp [segWalkAux] at h
  | succ m ih =>
      intro offset k h
      simp only [segWalkAux] at h ⊢
      split_ifs at h ⊢ with h1 h2
      · simp at h
      · simp at h
      · cases k with
        | zero =>
            simp only [List.getD_cons_succ, List.getD_cons_zero]
            rcases segWalkAux_head data m (offset + 8 + fromLE4 data (offset + 4))
              with he | hh
            · rw [List.length_cons, he] at h
              simp at h
            · rw [hh]
        | succ j =>
            simp only [List.getD_cons_succ]
            apply ih
            simp only [List.length_cons] at h
            omega

/-- Every examined segment's 8-byte header lies inside the file. -/
theorem segWalkAux_inbound (data : List Nat) :
    ∀ (n offset k : Nat), k < (segWalkAux data n offset).length →
    ((segWalkAux data n offset).getD k ⟨0, 0, 0⟩).offset + 8 ≤ data.length := by
  intro n
  induction n with
  | zero => intro offset k h; simp [segWalkAux] at h
  | succ m ih =>
      intro offset k h
      simp only [segWalkAux] at h ⊢
      split_ifs at h ⊢ with h1 h2
      · simp at h
      · simp only [List.length_singleton] at h
        interval_cases k
        simp only [List.getD_cons_zero]
        omega
      · cases k with
        | zero =>
            simp only [List.getD_cons_zero]
            omega
        | succ j =>
            simp only [List.getD_cons_succ]
            apply ih
            simp only [List.length_cons] at h
            omega

/-- All but possibly the last examined segment declare a length of at most
0x200000: the walk stops at the first oversized one. -/
theorem segWalkAux_len_bound (data : List Nat) :
    ∀ (n offset k : Nat), k + 1 < (segWalkAux data n offset).length →
    ((segWalkAux data n offset).getD k ⟨0, 0, 0⟩).len ≤ 0x200000 := by
  intro n
  induction n with
  | zero => intro offset k h; simp [segWalkAux] at h
  | succ m ih =>
      intro offset k h
      simp only [segWalkAux] at h ⊢
      split_ifs at h ⊢ with h1 h2
      · simp at h
      · simp at h
      · cases k with
        | zero =>
            simp only [List.getD_cons_zero]
            omega
        | succ j =>
            simp only [List.getD_cons_succ]
            apply ih
            simp only [List.length_cons] at h
            omega

/-- A successful key lookup in `RELAY_NAMES` yields one of the six fixed
relay ids. -/
theorem RELAY_NAMES_lookup_id (k : String) (v : String × String)
    (h : RELAY_NAMES.lookup k = some v) : v.1 ∈ relay_ids := by
  simp only [RELAY_NAMES, List.lookup] at h
  repeat' split at h
  all_goals simp_all [relay_ids, RELAY_NAMES]

/-! Claim theorems. -/

/-- Claim C1: for every load-current value, the home screen classifies
amps by the documented thresholds — below 15 A GREEN (nominal), from 15 A
up to but excluding 20 A YELLOW (warning), at and above 20 A RED
(over-threshold); in particular 15.0 A is YELLOW and 20.0 A is RED. -/
theorem load_color_bands :
    (∀ a : ℚ, (a < 15 → load_color a = "GREEN") ∧
      (15 ≤ a → a < 20 → load_color a = "YELLOW") ∧
      (20 ≤ a → load_color a = "RED")) ∧
    load_color 15 = "YELLOW" ∧ load_color 20 = "RED" := by
  refine ⟨fun a => ⟨fun h => ?_, fun h1 h2 => ?_, fun h => ?_⟩, by decide, by decide⟩
  · rw [load_color, if_neg (by linarith), if_neg (by linarith)]
  · rw [load_color, if_neg (by linarith), if_pos h1]
  · rw [load_color, if_pos h]

/-- Concrete instances of the three load-colour bands. -/
theorem load_color_bands_witness :
    ((10 : ℚ) < 15 ∧ load_color 10 = "GREEN") ∧
    ((15 : ℚ) ≤ 17 ∧ (17 : ℚ) < 20 ∧ load_color 17 = "YELLOW") ∧
    ((20 : ℚ) ≤ 25 ∧ load_color 25 = "RED") :=
  ⟨⟨by decide, (load_color_bands.1 10).1 (by decide)⟩,
   ⟨by decide, by decide, (load_color_bands.1 17).2.1 (by decide) (by decide)⟩,
   ⟨by decide, (load_color_bands.1 25).2.2 (by decide)⟩⟩

/-- Claim C3: the notification handler decodes `relayMask` as a bitmask
over the fixed relay-id ordering left, right, brake, tail, marker, aux:
entry `i` of the decoded relay states pairs the `i`-th relay id with the
value of bit `i` of the mask. -/
theorem relayMask_decode_testBit (mask i : Nat) (h : i < 6) :
    (decodeRelayStates mask).getD i ("", false) =
      (relay_ids.getD i "", mask.testBit i) := by
  interval_cases i <;>
    simp [decodeRelayStates, relay_ids, RELAY_NAMES, List.enum, List.enumFrom,
      List.getD, and_shift_ne_zero]

/-- Concrete instance: mask 5 sets relay 2 (brake) iff bit 2 is set. -/
theorem relayMask_decode_testBit_witness :
    (2 : Nat) < 6 ∧
    (decodeRelayStates 5).getD 2 ("", false) =
      (relay_ids.getD 2 "", Nat.testBit 5 2) :=
  ⟨by decide, relayMask_decode_testBit 5 2 (by decide)⟩

/-- Claim C4: the client reports the 12 V bus enabled exactly when bit 0 of
`statusFlags` is set (so no other bit affects the report), and an absent
`statusFlags` field defaults to 0, i.e. reads as disabled. -/
theorem statusFlags_bit0_twelveV (p : StatusRecord) :
    twelveVReport p = (p.statusFlags.getD 0).testBit 0 ∧
    twelveVReport { p with statusFlags := none } = false := by
  constructor
  · rw [twelveVReport]
    have h1 : (1 : Nat) = 1 <<< 0 := rfl
    rw [h1, and_shift_ne_zero]
  · simp [twelveVReport]

/-- Claim C5: the rail status rendering of the home screen uses exactly the
three canonical labels and depends only on the status string, for every
voltage value: a BYPASS rail renders as BYPASS in YELLOW (never as
ACTIVE) and an ACTIVE rail renders as ACTIVE in RED, including at 10 V,
far below the 15.5 V cutoff of the spec's example. -/
theorem rail_status_render_canonical :
    (∀ v : Option ℚ,
      renderRailStatus "BYPASS" v = ("YELLOW", "BYPASS") ∧
      (renderRailStatus "BYPASS" v).2 ≠ "ACTIVE" ∧
      renderRailStatus "ACTIVE" v = ("RED", "ACTIVE") ∧
      (∀ s : String,
        (renderRailStatus s v).2 ∈ (["ok", "ACTIVE", "BYPASS"] : List String))) ∧
    renderRailStatus "BYPASS" (some 10) = ("YELLOW", "BYPASS") := by
  refine ⟨fun v => ⟨?_, ?_, ?_, fun s => ?_⟩, by decide⟩
  · simp [renderRailStatus]
  · simp [renderRailStatus]
  · simp [renderRailStatus]
  · unfold renderRailStatus
    split_ifs <;> simp

/-- Concrete instance: the BYPASS label survives a 10 V reading. -/
theorem rail_status_render_canonical_witness :
    renderRailStatus "BYPASS" (some 10) = ("YELLOW", "BYPASS") ∧
    renderRailStatus "ACTIVE" (some 10) = ("RED", "ACTIVE") :=
  ⟨(rail_status_render_canonical.1 (some 10)).1,
   (rail_status_render_canonical.1 (some 10)).2.2.1⟩

/-- Claim C8: every rail status string other than BYPASS and ACTIVE —
unknown or misspelled ones included — renders as the healthy GREEN "ok"
line. -/
theorem unknown_rail_status_renders_ok (s : String) (v : Option ℚ)
    (h1 : s ≠ "BYPASS") (h2 : s ≠ "ACTIVE") :
    renderRailStatus s v = ("GREEN", "ok") := by
  rw [renderRailStatus, if_neg h1, if_neg h2]

/-- Concrete instance: the misspelled status "OK" renders as a healthy
rail. -/
theorem unknown_rail_status_renders_ok_witness :
    (("OK" : String) ≠ "BYPASS" ∧ ("OK" : String) ≠ "ACTIVE") ∧
    renderRailStatus "OK" (some 10) = ("GREEN", "ok") :=
  ⟨⟨by decide, by decide⟩,
   unknown_rail_status_renders_ok "OK" (some 10) (by decide) (by decide)⟩

/-- Claim C9: when `relay_states` has no entry for the chosen relay id
(no status notification decoded yet), a relay key sends a relay command
with state true — the unknown state is treated as OFF and the toggle
requests ON. -/
theorem unknown_relay_state_toggles_on (relay_states : List (String × Bool))
    (line relayId name : String)
    (hk : RELAY_NAMES.lookup (pyNormalize line) = some (relayId, name))
    (hs : relay_states.lookup relayId = none) :
    handle_input_step relay_states line =
      (some (Command.relay relayId true), false) := by
  have hq : pyNormalize line ≠ "q" := by
    intro e
    rw [e] at hk
    simp [RELAY_NAMES, List.lookup] at hk
  have hr : pyNormalize line ≠ "r" := by
    intro e
    rw [e] at hk
    simp [RELAY_NAMES, List.lookup] at hk
  simp only [handle_input_step]
  rw [if_neg hq, if_neg hr, hk]
  simp [hs]

/-- Concrete instance: with no notification received, key 3 toggles the
brake relay ON. -/
theorem unknown_relay_state_toggles_on_witness :
    (RELAY_NAMES.lookup (pyNormalize "3") = some ("relay-brake", "Brake") ∧
     ([] : List (String × Bool)).lookup "relay-brake" = none) ∧
    handle_input_step [] "3" = (some (Command.relay "relay-brake" true), false) :=
  ⟨⟨by decide, by decide⟩,
   unknown_relay_state_toggles_on [] "3" "relay-brake" "Brake" (by decide)
     (by decide)⟩

/-- Claim C2 (protection core modelled from the spec): for every current
sequence holding at or above the OCP threshold for at least the configured
sustain duration, the system is FAULT_LATCHED within one tick of the
duration elapsing — that is, after processing `dur + 1` over-threshold
samples — and in that same tick the active channel is OFF, the published
`relayMask` is 0, and bit 0 of the published `statusFlags` (12 V enabled)
is 0. -/
theorem ocp_sustain_latches_and_forces_off (thr : ℚ) (dur : Nat)
    (samples : List ℚ) (s : CoreState)
    (hall : ∀ a ∈ samples, thr ≤ a) (hlen : dur < samples.length) :
    (coreRun thr dur s (samples.take (dur + 1))).cm.ocpLatched = true ∧
    (coreRun thr dur s (samples.take (dur + 1))).prot =
      ProtState.FAULT_LATCHED ∧
    (coreRun thr dur s (samples.take (dur + 1))).active = Channel.OFF ∧
    (snapshot (coreRun thr dur s (samples.take (dur + 1)))).relayMask = 0 ∧
    (snapshot (coreRun thr dur s (samples.take (dur + 1)))).statusFlags
      &&& 1 = 0 := by
  have htlen : (samples.take (dur + 1)).length = dur + 1 := by
    rw [List.length_take]
    omega
  have htall : ∀ a ∈ samples.take (dur + 1), thr ≤ a :=
    fun a ha => hall a (List.take_subset _ _ ha)
  have hne : samples.take (dur + 1) ≠ [] := by
    intro e
    rw [e] at htlen
    simp at htlen
  have hlatch :
      (coreRun thr dur s (samples.take (dur + 1))).cm.ocpLatched = true := by
    rcases coreRun_count_exact thr dur (samples.take (dur + 1)) s htall with
      h | h
    · exact h
    · rcases coreRun_count_bound thr dur (samples.take (dur + 1)) s hne htall
        with h2 | h2
      · exact h2
      · rw [htlen] at h
        omega
  obtain ⟨hp, ha, hv⟩ :=
    coreRun_forces_off thr dur (samples.take (dur + 1)) s hne hlatch
  exact ⟨hlatch, hp, ha, by simp [snapshot, ha, channelMask],
    by simp [snapshot, hv]⟩

/-- Concrete instance: threshold 20 A, 2-sample sustain window, three
21 A samples: the fault latches, the channel is forced OFF, the relay mask
is zeroed and status bit 0 is cleared. -/
theorem ocp_sustain_latches_and_forces_off_witness :
    ((∀ a ∈ ([21, 21, 21] : List ℚ), (20 : ℚ) ≤ a) ∧
      2 < ([21, 21, 21] : List ℚ).length) ∧
    ((coreRun 20 2 ⟨⟨0, false⟩, false, false, false, false, Channel.LEFT,
        true, ProtState.NORMAL⟩ [21, 21, 21]).cm.ocpLatched = true ∧
     (coreRun 20 2 ⟨⟨0, false⟩, false, false, false, false, Channel.LEFT,
        true, ProtState.NORMAL⟩ [21, 21, 21]).prot =
          ProtState.FAULT_LATCHED ∧
     (coreRun 20 2 ⟨⟨0, false⟩, false, false, false, false, Channel.LEFT,
        true, ProtState.NORMAL⟩ [21, 21, 21]).active = Channel.OFF ∧
     (snapshot (coreRun 20 2 ⟨⟨0, false⟩, false, false, false, false,
        Channel.LEFT, true, ProtState.NORMAL⟩ [21, 21, 21])).relayMask = 0 ∧
     (snapshot (coreRun 20 2 ⟨⟨0, false⟩, false, false, false, false,
        Channel.LEFT, true, ProtState.NORMAL⟩ [21, 21, 21])).statusFlags
       &&& 1 = 0) :=
  ⟨⟨by decide, by decide⟩,
   ocp_sustain_latches_and_forces_off 20 2 [21, 21, 21]
     ⟨⟨0, false⟩, false, false, false, false, Channel.LEFT, true,
       ProtState.NORMAL⟩ (by decide) (by decide)⟩

/-- Claim C6 counterexample: the raw console line "R" is none of 'q', 'r',
'1'..'6', yet the client sends a refresh command — `handle_input` strips
and lowercases the line before dispatching. -/
theorem raw_line_R_sends_refresh :
    ("R" : String) ∉ (["q", "r", "1", "2", "3", "4", "5", "6"] : List String) ∧
    handle_input_step [] "R" = (some Command.refresh, false) := by
  constructor
  · decide
  · decide

/-- Claim C6 (amended): invalid notification payloads are silently
ignored — when both JSON decode attempts fail, `decode_status` returns
`none` and the notification handler leaves `current_status` and
`relay_states` unchanged and prints nothing; and a console line whose
stripped, lowercased form is none of 'q', 'r', '1'..'6' sends no command
and changes nothing. -/
theorem silent_ignore_amended :
    (∀ (b64json utf8json : List Nat → Option StatusRecord) (data : List Nat),
      b64json data = none → utf8json data = none →
      decode_status b64json utf8json data = none) ∧
    (∀ (b64json utf8json : List Nat → Option StatusRecord)
      (st : ClientState) (data : List Nat),
      b64json data = none → utf8json data = none →
      notification_handler b64json utf8json st data = (st, false)) ∧
    (∀ (relay_states : List (String × Bool)) (line : String),
      pyNormalize line ∉
        (["q", "r", "1", "2", "3", "4", "5", "6"] : List String) →
      handle_input_step relay_states line = (none, false)) := by
  refine ⟨fun b64json utf8json data h1 h2 => ?_,
    fun b64json utf8json st data h1 h2 => ?_, fun rs line h => ?_⟩
  · simp [decode_status, h1, h2]
  · simp [notification_handler, decode_status, h1, h2]
  · simp only [List.mem_cons, List.not_mem_nil, or_false, not_or] at h
    obtain ⟨hq, hr, h1, h2, h3, h4, h5, h6⟩ := h
    simp only [handle_input_step]
    rw [if_neg hq, if_neg hr]
    have e1 := beq_eq_false_iff_ne.mpr h1
    have e2 := beq_eq_false_iff_ne.mpr h2
    have e3 := beq_eq_false_iff_ne.mpr h3
    have e4 := beq_eq_false_iff_ne.mpr h4
    have e5 := beq_eq_false_iff_ne.mpr h5
    have e6 := beq_eq_false_iff_ne.mpr h6
    simp [RELAY_NAMES, List.lookup, e1, e2, e3, e4, e5, e6]

/-- Concrete instance: decoders that both fail leave the client state
alone, and the unknown console line "zz" sends nothing. -/
theorem silent_ignore_amended_witness :
    ((fun _ : List Nat => (none : Option StatusRecord)) [0] = none ∧
     decode_status (fun _ => none) (fun _ => none) [0] = none) ∧
    notification_handler (fun _ => none) (fun _ => none) ⟨none, []⟩ [0] =
      (⟨none, []⟩, false) ∧
    (pyNormalize "zz" ∉
      (["q", "r", "1", "2", "3", "4", "5", "6"] : List String) ∧
     handle_input_step [] "zz" = (none, false)) :=
  ⟨⟨rfl, silent_ignore_amended.1 (fun _ => none) (fun _ => none) [0] rfl rfl⟩,
   silent_ignore_amended.2.1 (fun _ => none) (fun _ => none) ⟨none, []⟩ [0]
     rfl rfl,
   ⟨by decide, silent_ignore_amended.2.2 [] "zz" (by decide)⟩⟩

/-- Claim C7: every command the test client ever writes is either the
refresh command or a relay command for one of the six fixed relay ids with
a boolean state; it never sends mode, clearLatch or bypass commands; and
each command's wire payload is the base64 encoding of its JSON
serialization. -/
theorem client_commands_closed (c : Command) (h : ClientSends c) :
    (c = Command.refresh ∨
      ∃ id b, c = Command.relay id b ∧ id ∈ relay_ids) ∧
    (∀ m, c ≠ Command.mode m) ∧ c ≠ Command.clearLatch ∧
    (∀ r b, c ≠ Command.bypass r b) ∧
    send_command_payload c =
      String.mk (base64Encode (asciiBytes (json_dumps c))) := by
  cases h with
  | initial_refresh =>
      exact ⟨Or.inl rfl, fun m => by simp, by simp, fun r b => by simp, rfl⟩
  | from_input rs line c hc =>
      simp only [handle_input_step] at hc
      split_ifs at hc with hq hr
      · have hc2 : some Command.refresh = some c := hc
        cases hc2
        exact ⟨Or.inl rfl, fun m => by simp, by simp, fun r b => by simp, rfl⟩
      · cases hl : RELAY_NAMES.lookup (pyNormalize line) with
        | none =>
            rw [hl] at hc
            have hc2 : (none : Option Command) = some c := hc
            exact Option.noConfusion hc2
        | some v =>
            rw [hl] at hc
            have hc2 :
                some (Command.relay v.1 (!((rs.lookup v.1).getD false))) =
                  some c := hc
            cases hc2
            exact ⟨Or.inr ⟨v.1, _, rfl,
                RELAY_NAMES_lookup_id (pyNormalize line) v hl⟩,
              fun m => by simp, by simp, fun r b => by simp, rfl⟩

/-- Concrete instance: the initial refresh is a sent command of the
permitted shape. -/
theorem client_commands_closed_witness :
    ClientSends Command.refresh ∧
    (Command.refresh = Command.refresh ∨
      ∃ id b, Command.refresh = Command.relay id b ∧ id ∈ relay_ids) :=
  ⟨ClientSends.initial_refresh,
   (client_commands_closed Command.refresh ClientSends.initial_refresh).1⟩

/-- Claim C10: for every firmware byte string (with the header byte 1
present), the segment walk examines at most `seg_count` segments; each
examined segment's successor offset is exactly 8 plus the declared length
further on (so offsets strictly increase); every examined segment's 8-byte
header lies inside the file; and every examined segment except possibly
the last declares a length of at most 0x200000 — the walk stops at the
first oversized one. -/
theorem segwalk_bounded_safe (data : List Nat) (h : 2 ≤ data.length) :
    (segWalk data).length ≤ seg_count data ∧
    (∀ k, k + 1 < (segWalk data).length →
      ((segWalk data).getD (k + 1) ⟨0, 0, 0⟩).offset =
        ((segWalk data).getD k ⟨0, 0, 0⟩).offset + 8 +
        ((segWalk data).getD k ⟨0, 0, 0⟩).len ∧
      ((segWalk data).getD k ⟨0, 0, 0⟩).offset <
        ((segWalk data).getD (k + 1) ⟨0, 0, 0⟩).offset) ∧
    (∀ k, k < (segWalk data).length →
      ((segWalk data).getD k ⟨0, 0, 0⟩).offset + 8 ≤ data.length) ∧
    (∀ k, k + 1 < (segWalk data).length →
      ((segWalk data).getD k ⟨0, 0, 0⟩).len ≤ 0x200000) := by
  refine ⟨segWalkAux_length data _ _, fun k hk => ?_,
    fun k hk => segWalkAux_inbound data _ _ k hk,
    fun k hk => segWalkAux_len_bound data _ _ k hk⟩
  have hc : ((segWalk data).getD (k + 1) ⟨0, 0, 0⟩).offset =
      ((segWalk data).getD k ⟨0, 0, 0⟩).offset + 8 +
      ((segWalk data).getD k ⟨0, 0, 0⟩).len :=
    segWalkAux_chain data (seg_count data) 24 k hk
  exact ⟨hc, by omega⟩

/-- Concrete instance: a 34-byte image with `seg_count = 2` and one
segment of declared length 2 followed by end of file. -/
theorem segwalk_bounded_safe_witness :
    2 ≤ ([233, 2, 0, 0, 0, 0, 0, 0, 0, 0, 0, 0, 0, 0, 0, 0, 0, 0, 0, 0, 0,
      0, 0, 0, 1, 0, 0, 0, 2, 0, 0, 0, 7, 7] : List Nat).length ∧
    (segWalk [233, 2, 0, 0, 0, 0, 0, 0, 0, 0, 0, 0, 0, 0, 0, 0, 0, 0, 0,
        0, 0, 0, 0, 0, 1, 0, 0, 0, 2, 0, 0, 0, 7, 7]).length ≤
      seg_count [233, 2, 0, 0, 0, 0, 0, 0, 0, 0, 0, 0, 0, 0, 0, 0, 0, 0,
        0, 0, 0, 0, 0, 0, 1, 0, 0, 0, 2, 0, 0, 0, 7, 7] :=
  ⟨by decide,
   (segwalk_bounded_safe [233, 2, 0, 0, 0, 0, 0, 0, 0, 0, 0, 0, 0, 0, 0,
     0, 0, 0, 0, 0, 0, 0, 0, 0, 1, 0, 0, 0, 2, 0, 0, 0, 7, 7]
     (by decide)).1⟩

/-- The spec's section 8 end-to-end example, replayed on the modelled
CurrentMonitor: raw samples 10,10,16,16,16,21,21,21 A with threshold 20 A
and a 2-sample sustain window give the status trace
OK,OK,OK,OK,OK,WARN,WARN,OCP_LATCHED. -/
theorem spec_example_trace :
    cmTrace 20 2 ⟨0, false⟩ [10, 10, 16, 16, 16, 21, 21, 21] =
      [OcpStatus.OK, OcpStatus.OK, OcpStatus.OK, OcpStatus.OK, OcpStatus.OK,
       OcpStatus.WARN, OcpStatus.WARN, OcpStatus.OCP_LATCHED] := by
  decide

/-- The refresh command's wire payload, computed concretely: base64 of
the JSON text. -/
theorem refresh_payload_base64 :
    send_command_payload Command.refresh = "eyJ0eXBlIjogInJlZnJlc2gifQ==" := by
  decide

end TLTB
